import Mathlib

/-!
# Verification of the digigurdy string-voice and mute-cycling core

Shallow embedding of `src/gurdystring.cpp`, `src/exfunctions.cpp` and the
geared-crank spin constants of `src/config.h`.

The sound transport is modelled as the stream of messages sent through
`usbMIDI`, which is active in every build configuration; in the MIDI-OUT
build (the one selected in `config.h`, where neither `USE_TRIGGER` nor
`USE_TSUNAMI` is defined) the serial `MIDI` object mirrors this stream
message for message, so one stream represents the transport.

Display refresh calls (`draw_play_screen` / `print_display`) are external
collaborator interfaces that read state and own no logic here; they are not
part of the modelled state or message stream.
-/

/-- A message on the sound transport. -/
inductive MidiMsg where
  | noteOn (note velocity channel : Int)
  | noteOff (note velocity channel : Int)
  | controlChange (cc value channel : Int)
deriving DecidableEq, Repr

/-- `src/config.h`: the maximum "spin" value of the geared crank. -/
def MAX_SPIN : Nat := 7600

/-- `src/config.h`: spin added per update in which cranking is detected. -/
def SPIN_WEIGHT : Nat := 2500

/-- `src/config.h`: spin subtracted per update without detected cranking. -/
def SPIN_DECAY : Nat := 200

/-- The state of one string voice (`GurdyString` in `src/gurdystring.cpp`).
Fields are the data members used by that translation unit.  `mute_on` and
`is_playing` are declared in the class header (not under `src/`); they are
booleans read and written only through `setMute` / the sound methods. -/
structure GurdyString where
  midi_channel : Int
  name : String
  open_note : Int
  midi_volume : Int
  trigger_volume : Int
  note_being_played : Int
  mute_on : Bool
  is_playing : Bool
deriving DecidableEq, Repr

/-- The derived Trigger/Tsunami gain: `int((vol)/128.0 * 80 - 70)` from the
constructor and `setVolume`.  For the integer volumes involved the double
computation is exact (it equals the rational `(80*vol - 8960)/128`), and the
C++ cast to `int` truncates toward zero, which is `Int.tdiv`. -/
def triggerGain (vol : Int) : Int :=
  Int.tdiv (vol * 80 - 8960) 128

/-- The constructor `GurdyString::GurdyString(my_channel, my_note, my_name,
my_vol)`.  The in-class initializers of the header start a voice unmuted and
not playing. -/
def GurdyString.mkString (my_channel my_note : Int) (my_name : String)
    (my_vol : Int) : GurdyString :=
  { midi_channel := my_channel
    name := my_name
    open_note := my_note
    midi_volume := my_vol
    trigger_volume := triggerGain my_vol
    note_being_played := my_note
    mute_on := false
    is_playing := false }

/-- `GurdyString::soundOn(my_offset, my_modulation)`: records
`note_being_played = open_note + my_offset`; when unmuted emits a note-on at
`midi_volume` and, if `my_modulation > 0`, a CC1 message; sets
`is_playing = true` unconditionally. -/
def GurdyString.soundOn (s : GurdyString) (my_offset my_modulation : Int) :
    GurdyString × List MidiMsg :=
  let note := s.open_note + my_offset
  let msgs :=
    if s.mute_on then []
    else
      MidiMsg.noteOn note s.midi_volume s.midi_channel ::
        (if my_modulation > 0 then
          [MidiMsg.controlChange 1 my_modulation s.midi_channel]
        else [])
  ({ s with note_being_played := note, is_playing := true }, msgs)

/-- `GurdyString::soundOff()`: emits a note-off for `note_being_played`
regardless of mute state and sets `is_playing = false`. -/
def GurdyString.soundOff (s : GurdyString) : GurdyString × List MidiMsg :=
  ({ s with is_playing := false },
   [MidiMsg.noteOff s.note_being_played s.midi_volume s.midi_channel])

/-- `GurdyString::setOpenNote(new_note)`. -/
def GurdyString.setOpenNote (s : GurdyString) (new_note : Int) : GurdyString :=
  { s with open_note := new_note }

/-- `GurdyString::setVolume(vol)`: stores the volume and recomputes
`trigger_volume`; it sends nothing on the transport. -/
def GurdyString.setVolume (s : GurdyString) (vol : Int) :
    GurdyString × List MidiMsg :=
  ({ s with midi_volume := vol, trigger_volume := triggerGain vol }, [])

/-- `GurdyString::getVolume()`. -/
def GurdyString.getVolume (s : GurdyString) : Int := s.midi_volume

/-- `GurdyString::setMute(mute)`. -/
def GurdyString.setMute (s : GurdyString) (mute : Bool) : GurdyString :=
  { s with mute_on := mute }

/-- `GurdyString::getMute()`. -/
def GurdyString.getMute (s : GurdyString) : Bool := s.mute_on

/-- `GurdyString::getOpenNote()`. -/
def GurdyString.getOpenNote (s : GurdyString) : Int := s.open_note

/-- `GurdyString::isPlaying()`. -/
def GurdyString.isPlaying (s : GurdyString) : Bool := s.is_playing

/-- Modelled from the spec: the bare `soundOn()` calls of the mute cyclers use
the defaulted arguments declared in `gurdystring.h`, which is not under
`src/`.  Per the spec the re-trigger sounds "the unchanged note" — the note
the voice already tracks — with no modulation, so the defaulted call is
`soundOn` at the offset that reproduces `note_being_played`. -/
def GurdyString.soundOnDefault (s : GurdyString) : GurdyString × List MidiMsg :=
  s.soundOn (s.note_being_played - s.open_note) 0

/-- The re-trigger idiom of `src/exfunctions.cpp`: `soundOff()` immediately
followed by a bare `soundOn()`, with the two message bursts concatenated. -/
def GurdyString.retrig (s : GurdyString) : GurdyString × List MidiMsg :=
  let p1 := s.soundOff
  let p2 := p1.1.soundOnDefault
  (p2.1, p1.2 ++ p2.2)

/-- The global voice and mute-mode state read and written by
`src/exfunctions.cpp`: the five voice objects and the three mute-mode
integers.  The transpose/capo offsets and display parameters feed only the
external display collaborator and are not part of the modelled state. -/
structure GurdyState where
  mystring : GurdyString
  mylowstring : GurdyString
  mydrone : GurdyString
  mytromp : GurdyString
  mybuzz : GurdyString
  mel_mode : Int
  drone_mode : Int
  t_mode : Int
deriving DecidableEq, Repr

/-- `cycle_mel_mute()` from `src/exfunctions.cpp`: steps `mel_mode` through
0 (both on) → 1 (high on, low off) → 2 (high off, low on) → 0, sets the two
melody voices' mute flags, and re-triggers as the source does when the voice
it checks is playing.  The trailing display refresh is external. -/
def cycle_mel_mute (g : GurdyState) : GurdyState × List MidiMsg :=
  if g.mel_mode = 0 then
    let g1 := { g with mel_mode := 1
                       mystring := g.mystring.setMute false
                       mylowstring := g.mylowstring.setMute true }
    if g1.mylowstring.is_playing then
      let p := g1.mylowstring.retrig
      ({ g1 with mylowstring := p.1 }, p.2)
    else (g1, [])
  else if g.mel_mode = 1 then
    let g1 := { g with mel_mode := 2
                       mystring := g.mystring.setMute true
                       mylowstring := g.mylowstring.setMute false }
    if g1.mystring.is_playing then
      let p := g1.mystring.retrig
      let q := g1.mylowstring.retrig
      ({ g1 with mystring := p.1, mylowstring := q.1 }, p.2 ++ q.2)
    else (g1, [])
  else if g.mel_mode = 2 then
    let g1 := { g with mel_mode := 0
                       mystring := g.mystring.setMute false
                       mylowstring := g.mylowstring.setMute false }
    if g1.mystring.is_playing then
      let p := g1.mystring.retrig
      ({ g1 with mystring := p.1 }, p.2)
    else (g1, [])
  else (g, [])

/-- `cycle_drone_tromp_mute()` from `src/exfunctions.cpp`: steps `drone_mode`
through 0 (both on) → 1 (both off) → 2 (drone on, tromp off) → 3 (drone off,
tromp on) → 0, keeping the buzz voice's mute flag equal to the trompette's,
and re-triggers as the source does when the drone voice is playing. -/
def cycle_drone_tromp_mute (g : GurdyState) : GurdyState × List MidiMsg :=
  if g.drone_mode = 0 then
    let g1 := { g with drone_mode := 1
                       mydrone := g.mydrone.setMute true
                       mytromp := g.mytromp.setMute true
                       mybuzz := g.mybuzz.setMute true }
    if g1.mydrone.is_playing then
      let p := g1.mydrone.retrig
      let q := g1.mytromp.retrig
      ({ g1 with mydrone := p.1, mytromp := q.1 }, p.2 ++ q.2)
    else (g1, [])
  else if g.drone_mode = 1 then
    let g1 := { g with drone_mode := 2
                       mydrone := g.mydrone.setMute false
                       mytromp := g.mytromp.setMute true
                       mybuzz := g.mybuzz.setMute true }
    if g1.mydrone.is_playing then
      let p := g1.mydrone.retrig
      ({ g1 with mydrone := p.1 }, p.2)
    else (g1, [])
  else if g.drone_mode = 2 then
    let g1 := { g with drone_mode := 3
                       mydrone := g.mydrone.setMute true
                       mytromp := g.mytromp.setMute false
                       mybuzz := g.mybuzz.setMute false }
    if g1.mydrone.is_playing then
      let p := g1.mydrone.retrig
      let q := g1.mytromp.retrig
      ({ g1 with mydrone := p.1, mytromp := q.1 }, p.2 ++ q.2)
    else (g1, [])
  else if g.drone_mode = 3 then
    let g1 := { g with drone_mode := 0
                       mydrone := g.mydrone.setMute false
                       mytromp := g.mytromp.setMute false
                       mybuzz := g.mybuzz.setMute false }
    if g1.mydrone.is_playing then
      let p := g1.mydrone.retrig
      ({ g1 with mydrone := p.1 }, p.2)
    else (g1, [])
  else (g, [])

/-- `cycle_drone_mute()` from `src/exfunctions.cpp`: toggles only the drone
voice's mute flag, moving `drone_mode` 0 ↔ 3 and 2 ↔ 1, and re-triggers the
drone as the source does when it is playing. -/
def cycle_drone_mute (g : GurdyState) : GurdyState × List MidiMsg :=
  if g.drone_mode = 0 ∨ g.drone_mode = 2 then
    let g1 := { g with drone_mode := if g.drone_mode = 0 then 3 else 1
                       mydrone := g.mydrone.setMute true }
    if g1.mydrone.is_playing then
      let p := g1.mydrone.retrig
      ({ g1 with mydrone := p.1 }, p.2)
    else (g1, [])
  else if g.drone_mode = 1 ∨ g.drone_mode = 3 then
    let g1 := { g with drone_mode := if g.drone_mode = 1 then 2 else 0
                       mydrone := g.mydrone.setMute false }
    if g1.mydrone.is_playing then
      let p := g1.mydrone.retrig
      ({ g1 with mydrone := p.1 }, p.2)
    else (g1, [])
  else (g, [])

/-- `cycle_tromp_mute()` from `src/exfunctions.cpp`: toggles `t_mode` 0 ↔ 1,
muting or unmuting the trompette and buzz voices together, and re-triggers
the trompette as the source does when it is playing. -/
def cycle_tromp_mute (g : GurdyState) : GurdyState × List MidiMsg :=
  if g.t_mode = 0 then
    let g1 := { g with t_mode := 1
                       mytromp := g.mytromp.setMute true
                       mybuzz := g.mybuzz.setMute true }
    if g1.mytromp.is_playing then
      let p := g1.mytromp.retrig
      ({ g1 with mytromp := p.1 }, p.2)
    else (g1, [])
  else if g.t_mode = 1 then
    let g1 := { g with t_mode := 0
                       mytromp := g.mytromp.setMute false
                       mybuzz := g.mybuzz.setMute false }
    if g1.mytromp.is_playing then
      let p := g1.mytromp.retrig
      ({ g1 with mytromp := p.1 }, p.2)
    else (g1, [])
  else (g, [])

/-- The four user-facing mute operations. -/
inductive MuteOp where
  | mel
  | droneTromp
  | drone
  | tromp
deriving DecidableEq, Repr

/-- Dispatch a mute operation on the global state. -/
def applyMuteOp : MuteOp → GurdyState → GurdyState × List MidiMsg
  | MuteOp.mel, g => cycle_mel_mute g
  | MuteOp.droneTromp, g => cycle_drone_tromp_mute g
  | MuteOp.drone, g => cycle_drone_mute g
  | MuteOp.tromp, g => cycle_tromp_mute g

/-- Apply a sequence of mute operations, keeping only the state. -/
def applyMuteOps (ops : List MuteOp) (g : GurdyState) : GurdyState :=
  ops.foldl (fun a op => (applyMuteOp op a).1) g

/-- The voice whose `isPlaying()` gates the re-trigger of each operation:
`cycle_mel_mute` checks `mylowstring` in its first branch and `mystring` in
the others; the drone/trompette operations check `mydrone`; the trompette
toggle checks `mytromp`. -/
def repVoice : MuteOp → GurdyState → GurdyString
  | MuteOp.mel, g => if g.mel_mode = 0 then g.mylowstring else g.mystring
  | MuteOp.droneTromp, g => g.mydrone
  | MuteOp.drone, g => g.mydrone
  | MuteOp.tromp, g => g.mytromp

/-- The three mute-mode integers hold values the cyclers produce:
`mel_mode ∈ {0,1,2}`, `drone_mode ∈ {0,1,2,3}`, `t_mode ∈ {0,1}`. -/
def validModes (g : GurdyState) : Prop :=
  (g.mel_mode = 0 ∨ g.mel_mode = 1 ∨ g.mel_mode = 2) ∧
  (g.drone_mode = 0 ∨ g.drone_mode = 1 ∨ g.drone_mode = 2 ∨ g.drone_mode = 3) ∧
  (g.t_mode = 0 ∨ g.t_mode = 1)

/-- The melody mute flags agree with `mel_mode`:
0 = both on, 1 = high on / low off, 2 = high off / low on. -/
def melodyConsistent (g : GurdyState) : Prop :=
  (g.mel_mode = 0 ∧ g.mystring.mute_on = false ∧ g.mylowstring.mute_on = false) ∨
  (g.mel_mode = 1 ∧ g.mystring.mute_on = false ∧ g.mylowstring.mute_on = true) ∨
  (g.mel_mode = 2 ∧ g.mystring.mute_on = true ∧ g.mylowstring.mute_on = false)

/-- The drone and trompette mute flags agree with `drone_mode`:
0 = both on, 1 = both off, 2 = drone on / tromp off, 3 = drone off / tromp
on. -/
def droneTrompConsistent (g : GurdyState) : Prop :=
  (g.drone_mode = 0 ∧ g.mydrone.mute_on = false ∧ g.mytromp.mute_on = false) ∨
  (g.drone_mode = 1 ∧ g.mydrone.mute_on = true ∧ g.mytromp.mute_on = true) ∨
  (g.drone_mode = 2 ∧ g.mydrone.mute_on = false ∧ g.mytromp.mute_on = true) ∨
  (g.drone_mode = 3 ∧ g.mydrone.mute_on = true ∧ g.mytromp.mute_on = false)

/-- Two voice states agree on every field except possibly the mute flag. -/
def voiceFrameEq (a b : GurdyString) : Prop :=
  a.midi_channel = b.midi_channel ∧ a.name = b.name ∧
  a.open_note = b.open_note ∧ a.midi_volume = b.midi_volume ∧
  a.trigger_volume = b.trigger_volume ∧
  a.note_being_played = b.note_being_played ∧ a.is_playing = b.is_playing

/-- A mute operation left every voice untouched except for mute flags (the
mode integers may still change). -/
def frameMuteOnly (g g' : GurdyState) : Prop :=
  voiceFrameEq g'.mystring g.mystring ∧
  voiceFrameEq g'.mylowstring g.mylowstring ∧
  voiceFrameEq g'.mydrone g.mydrone ∧
  voiceFrameEq g'.mytromp g.mytromp ∧
  voiceFrameEq g'.mybuzz g.mybuzz

/-- Every voice still tracks the same note: re-triggering happened at the
unchanged note. -/
def notesUnchanged (g g' : GurdyState) : Prop :=
  g'.mystring.note_being_played = g.mystring.note_being_played ∧
  g'.mylowstring.note_being_played = g.mylowstring.note_being_played ∧
  g'.mydrone.note_being_played = g.mydrone.note_being_played ∧
  g'.mytromp.note_being_played = g.mytromp.note_being_played ∧
  g'.mybuzz.note_being_played = g.mybuzz.note_being_played

/-- Two voice states agree on open note, volume and playing flag. -/
def voiceCoreEq (a b : GurdyString) : Prop :=
  a.open_note = b.open_note ∧ a.midi_volume = b.midi_volume ∧
  a.is_playing = b.is_playing

lemma retrig_note (s : GurdyString) :
    (s.retrig).1.note_being_played = s.note_being_played := by
  simp only [GurdyString.retrig, GurdyString.soundOnDefault,
    GurdyString.soundOn, GurdyString.soundOff]
  omega

lemma retrig_mute (s : GurdyString) : (s.retrig).1.mute_on = s.mute_on := rfl

lemma retrig_playing (s : GurdyString) : (s.retrig).1.is_playing = true := rfl

lemma retrig_open (s : GurdyString) : (s.retrig).1.open_note = s.open_note :=
  rfl

lemma retrig_vol (s : GurdyString) :
    (s.retrig).1.midi_volume = s.midi_volume := rfl

lemma retrig_trig (s : GurdyString) :
    (s.retrig).1.trigger_volume = s.trigger_volume := rfl

lemma retrig_chan (s : GurdyString) :
    (s.retrig).1.midi_channel = s.midi_channel := rfl

lemma retrig_name (s : GurdyString) : (s.retrig).1.name = s.name := rfl

/-- A playing voice is restored exactly by `soundOff(); soundOn()`. -/
lemma retrig_fst_of_playing (s : GurdyString) (h : s.is_playing = true) :
    (s.retrig).1 = s := by
  have hn := retrig_note s
  cases s
  simp only [GurdyString.retrig, GurdyString.soundOnDefault,
    GurdyString.soundOn, GurdyString.soundOff] at hn ⊢
  simp_all

/-- The messages of `soundOff(); soundOn()`: one note-off at the tracked
note, then (when unmuted) one note-on at the same note. -/
lemma retrig_snd (s : GurdyString) :
    (s.retrig).2 =
      MidiMsg.noteOff s.note_being_played s.midi_volume s.midi_channel ::
        (if s.mute_on then []
         else [MidiMsg.noteOn s.note_being_played s.midi_volume
                s.midi_channel]) := by
  have h : s.open_note + (s.note_being_played - s.open_note) =
      s.note_being_played := by omega
  simp only [GurdyString.retrig, GurdyString.soundOnDefault,
    GurdyString.soundOn, GurdyString.soundOff, h]
  split <;> simp

lemma cycle_mel_mute_modes (g : GurdyState) :
    ((cycle_mel_mute g).1.mel_mode,
     (cycle_mel_mute g).1.mystring.mute_on,
     (cycle_mel_mute g).1.mylowstring.mute_on) =
      if g.mel_mode = 0 then (1, false, true)
      else if g.mel_mode = 1 then (2, true, false)
      else if g.mel_mode = 2 then (0, false, false)
      else (g.mel_mode, g.mystring.mute_on, g.mylowstring.mute_on) := by
  simp only [cycle_mel_mute]
  split_ifs <;> simp [GurdyString.setMute, retrig_mute]

lemma cycle_mel_mute_others (g : GurdyState) :
    (cycle_mel_mute g).1.mydrone = g.mydrone ∧
    (cycle_mel_mute g).1.mytromp = g.mytromp ∧
    (cycle_mel_mute g).1.mybuzz = g.mybuzz ∧
    (cycle_mel_mute g).1.drone_mode = g.drone_mode ∧
    (cycle_mel_mute g).1.t_mode = g.t_mode := by
  simp only [cycle_mel_mute]
  split_ifs <;> simp

lemma cycle_mel_mute_notes (g : GurdyState) :
    notesUnchanged g (cycle_mel_mute g).1 := by
  unfold notesUnchanged
  simp only [cycle_mel_mute]
  split_ifs <;> simp [GurdyString.setMute, retrig_note]

lemma cycle_dt_modes (g : GurdyState) :
    ((cycle_drone_tromp_mute g).1.drone_mode,
     (cycle_drone_tromp_mute g).1.mydrone.mute_on,
     (cycle_drone_tromp_mute g).1.mytromp.mute_on,
     (cycle_drone_tromp_mute g).1.mybuzz.mute_on) =
      if g.drone_mode = 0 then (1, true, true, true)
      else if g.drone_mode = 1 then (2, false, true, true)
      else if g.drone_mode = 2 then (3, true, false, false)
      else if g.drone_mode = 3 then (0, false, false, false)
      else (g.drone_mode, g.mydrone.mute_on, g.mytromp.mute_on,
            g.mybuzz.mute_on) := by
  simp only [cycle_drone_tromp_mute]
  split_ifs <;> simp [GurdyString.setMute, retrig_mute]

lemma cycle_dt_others (g : GurdyState) :
    (cycle_drone_tromp_mute g).1.mystring = g.mystring ∧
    (cycle_drone_tromp_mute g).1.mylowstring = g.mylowstring ∧
    (cycle_drone_tromp_mute g).1.mel_mode = g.mel_mode ∧
    (cycle_drone_tromp_mute g).1.t_mode = g.t_mode := by
  simp only [cycle_drone_tromp_mute]
  split_ifs <;> simp

lemma cycle_dt_notes (g : GurdyState) :
    notesUnchanged g (cycle_drone_tromp_mute g).1 := by
  unfold notesUnchanged
  simp only [cycle_drone_tromp_mute]
  split_ifs <;> simp [GurdyString.setMute, retrig_note]

lemma cycle_drone_modes (g : GurdyState) :
    ((cycle_drone_mute g).1.drone_mode,
     (cycle_drone_mute g).1.mydrone.mute_on) =
      if g.drone_mode = 0 then (3, true)
      else if g.drone_mode = 2 then (1, true)
      else if g.drone_mode = 1 then (2, false)
      else if g.drone_mode = 3 then (0, false)
      else (g.drone_mode, g.mydrone.mute_on) := by
  simp only [cycle_drone_mute]
  split_ifs <;> simp_all [GurdyString.setMute, retrig_mute]

lemma cycle_drone_others (g : GurdyState) :
    (cycle_drone_mute g).1.mystring = g.mystring ∧
    (cycle_drone_mute g).1.mylowstring = g.mylowstring ∧
    (cycle_drone_mute g).1.mytromp = g.mytromp ∧
    (cycle_drone_mute g).1.mybuzz = g.mybuzz ∧
    (cycle_drone_mute g).1.mel_mode = g.mel_mode ∧
    (cycle_drone_mute g).1.t_mode = g.t_mode := by
  simp only [cycle_drone_mute]
  split_ifs <;> simp

lemma cycle_drone_core (g : GurdyState) :
    voiceCoreEq (cycle_drone_mute g).1.mydrone g.mydrone ∧
    (cycle_drone_mute g).1.mydrone.note_being_played =
      g.mydrone.note_being_played := by
  unfold voiceCoreEq
  simp only [cycle_drone_mute]
  split_ifs with h1 h2 h3 h4 <;>
    simp_all [GurdyString.setMute, retrig_note, retrig_open, retrig_vol,
      retrig_playing]

lemma cycle_tromp_modes (g : GurdyState) :
    ((cycle_tromp_mute g).1.t_mode,
     (cycle_tromp_mute g).1.mytromp.mute_on,
     (cycle_tromp_mute g).1.mybuzz.mute_on) =
      if g.t_mode = 0 then (1, true, true)
      else if g.t_mode = 1 then (0, false, false)
      else (g.t_mode, g.mytromp.mute_on, g.mybuzz.mute_on) := by
  simp only [cycle_tromp_mute]
  split_ifs <;> simp [GurdyString.setMute, retrig_mute]

lemma cycle_tromp_others (g : GurdyState) :
    (cycle_tromp_mute g).1.mystring = g.mystring ∧
    (cycle_tromp_mute g).1.mylowstring = g.mylowstring ∧
    (cycle_tromp_mute g).1.mydrone = g.mydrone ∧
    (cycle_tromp_mute g).1.mel_mode = g.mel_mode ∧
    (cycle_tromp_mute g).1.drone_mode = g.drone_mode := by
  simp only [cycle_tromp_mute]
  split_ifs <;> simp

lemma cycle_tromp_notes (g : GurdyState) :
    notesUnchanged g (cycle_tromp_mute g).1 := by
  unfold notesUnchanged
  simp only [cycle_tromp_mute]
  split_ifs <;> simp [GurdyString.setMute, retrig_note]

lemma cycle_drone_notes (g : GurdyState) :
    notesUnchanged g (cycle_drone_mute g).1 := by
  unfold notesUnchanged
  simp only [cycle_drone_mute]
  split_ifs <;> simp [GurdyString.setMute, retrig_note]

/-- Modelled from the spec: the geared-crank spin update of the main loop
(not under `src/`; the constants are `src/config.h`).  Per update, an
above-threshold voltage sample adds `SPIN_WEIGHT` capped at `MAX_SPIN`; a
below-threshold sample subtracts `SPIN_DECAY` floored at zero (`Nat`
subtraction). -/
def spinUpdate (motion : Bool) (spin : Nat) : Nat :=
  if motion then min (spin + SPIN_WEIGHT) MAX_SPIN
  else spin - SPIN_DECAY

/-- A concrete muted voice used as a witness input. -/
def sampleMutedVoice : GurdyString :=
  (GurdyString.mkString 1 60 "Drone" 100).setMute true

/-- A concrete voice used as a witness input. -/
def sampleVoice : GurdyString := GurdyString.mkString 2 57 "Tromp" 56

/-- C1: for every string voice, `soundOn(o, m)` followed by `soundOff()`
leaves `isPlaying() = false` and emits exactly one note-off, at note
`open_note + o` as recorded by that `soundOn`, regardless of the voice's mute
state (`s` is arbitrary, so `s.mute_on` is arbitrary) and of any
`setOpenNote` call made between the two calls (second conjunct, for every
`n2`). -/
theorem soundOn_soundOff_one_noteOff (s : GurdyString) (o m n2 : Int) :
    (((s.soundOn o m).1.soundOff).1.isPlaying = false ∧
      ((s.soundOn o m).1.soundOff).2 =
        [MidiMsg.noteOff (s.open_note + o) s.midi_volume s.midi_channel]) ∧
    ((((s.soundOn o m).1.setOpenNote n2).soundOff).1.isPlaying = false ∧
      (((s.soundOn o m).1.setOpenNote n2).soundOff).2 =
        [MidiMsg.noteOff (s.open_note + o) s.midi_volume s.midi_channel]) :=
  ⟨⟨rfl, rfl⟩, ⟨rfl, rfl⟩⟩

/-- C2: `soundOn` on a muted voice emits nothing (no note-on, no CC1), but
still sets the playing flag and records `open_note + offset`. -/
theorem soundOn_muted_silent_but_playing (s : GurdyString) (o m : Int)
    (h : s.mute_on = true) :
    (s.soundOn o m).2 = [] ∧
    (s.soundOn o m).1.isPlaying = true ∧
    (s.soundOn o m).1.note_being_played = s.open_note + o := by
  refine ⟨?_, rfl, rfl⟩
  simp [GurdyString.soundOn, h]

/-- Witness for C2 at a concrete muted voice. -/
theorem soundOn_muted_silent_but_playing_witness :
    sampleMutedVoice.mute_on = true ∧
    ((sampleMutedVoice.soundOn 5 16).2 = [] ∧
     (sampleMutedVoice.soundOn 5 16).1.isPlaying = true ∧
     (sampleMutedVoice.soundOn 5 16).1.note_being_played =
       sampleMutedVoice.open_note + 5) :=
  ⟨rfl, soundOn_muted_silent_but_playing sampleMutedVoice 5 16 rfl⟩

/-- C9: from spin = 0, three above-threshold samples yield 7500 and a fourth
caps at `MAX_SPIN` = 7600, not 10000. -/
theorem spin_three_then_capped :
    spinUpdate true (spinUpdate true (spinUpdate true 0)) = 7500 ∧
    spinUpdate true
      (spinUpdate true (spinUpdate true (spinUpdate true 0))) = 7600 ∧
    spinUpdate true
      (spinUpdate true (spinUpdate true (spinUpdate true 0))) ≠ 10000 := by
  decide

lemma triggerGain_range_fin (w : Fin 128) :
    -70 ≤ triggerGain (w.1 : Int) ∧ triggerGain (w.1 : Int) ≤ 9 := by
  revert w
  decide

/-- The full statement of C10 at given inputs: volume round-trip, derived
gain and its range, no emission, and the frame condition of `setVolume`. -/
def VolumeConcl (s : GurdyString) (ch nt : Int) (nm : String) (v : Int) :
    Prop :=
  ((s.setVolume v).1.getVolume = v ∧
   (s.setVolume v).1.trigger_volume = triggerGain v ∧
   (s.setVolume v).2 = []) ∧
  (-70 ≤ triggerGain v ∧ triggerGain v ≤ 9) ∧
  ((s.setVolume v).1.mute_on = s.mute_on ∧
   (s.setVolume v).1.is_playing = s.is_playing ∧
   (s.setVolume v).1.open_note = s.open_note ∧
   (s.setVolume v).1.note_being_played = s.note_being_played ∧
   (s.setVolume v).1.midi_channel = s.midi_channel ∧
   (s.setVolume v).1.name = s.name) ∧
  ((GurdyString.mkString ch nt nm v).trigger_volume = triggerGain v ∧
   (GurdyString.mkString ch nt nm v).getVolume = v)

/-- C10: for every volume `v ∈ [0,127]` given to the constructor or to
`setVolume`, the derived trigger gain is the truncation of
`v/128.0 * 80 - 70` (the definition `triggerGain`) and lies in `[-70, 9]`;
`getVolume` returns `v`; and `setVolume` changes nothing but `midi_volume`
and `trigger_volume` and emits nothing. -/
theorem setVolume_gain_range_and_frame (s : GurdyString) (ch nt : Int)
    (nm : String) (v : Int) (h0 : 0 ≤ v) (h1 : v ≤ 127) :
    VolumeConcl s ch nt nm v := by
  refine ⟨⟨rfl, rfl, rfl⟩, ?_, ⟨rfl, rfl, rfl, rfl, rfl, rfl⟩, rfl, rfl⟩
  have hv : v = ((v.toNat : Nat) : Int) := (Int.toNat_of_nonneg h0).symm
  have hlt : v.toNat < 128 := by omega
  have hr := triggerGain_range_fin ⟨v.toNat, hlt⟩
  rw [hv]
  exact hr

/-- Witness for C10 at full volume on a concrete voice. -/
theorem setVolume_gain_range_and_frame_witness :
    (0 : Int) ≤ 127 ∧ (127 : Int) ≤ 127 ∧
    VolumeConcl sampleVoice 1 60 "High" 127 :=
  ⟨by decide, by decide,
   setVolume_gain_range_and_frame sampleVoice 1 60 "High" 127 (by decide)
     (by decide)⟩

/-- The three intermediate/final configurations of C4: one `cycle_mel_mute`
from BOTH_ON reaches HIGH_ONLY (mode 1, low muted), two reach LOW_ONLY
(mode 2, high muted), three restore the mode and both melody mute flags to
their starting values. -/
def MelCycleConcl (g : GurdyState) : Prop :=
  ((cycle_mel_mute g).1.mel_mode = 1 ∧
   (cycle_mel_mute g).1.mystring.mute_on = false ∧
   (cycle_mel_mute g).1.mylowstring.mute_on = true) ∧
  ((cycle_mel_mute (cycle_mel_mute g).1).1.mel_mode = 2 ∧
   (cycle_mel_mute (cycle_mel_mute g).1).1.mystring.mute_on = true ∧
   (cycle_mel_mute (cycle_mel_mute g).1).1.mylowstring.mute_on = false) ∧
  ((cycle_mel_mute (cycle_mel_mute (cycle_mel_mute g).1).1).1.mel_mode =
     g.mel_mode ∧
   (cycle_mel_mute
     (cycle_mel_mute (cycle_mel_mute g).1).1).1.mystring.mute_on =
     g.mystring.mute_on ∧
   (cycle_mel_mute
     (cycle_mel_mute (cycle_mel_mute g).1).1).1.mylowstring.mute_on =
     g.mylowstring.mute_on)

/-- C4: starting from BOTH_ON (mode 0, both melody voices unmuted),
successive `cycle_mel_mute` calls visit HIGH_ONLY, then LOW_ONLY, and the
third restores mode and both mute flags to the starting configuration. -/
theorem mel_mute_cycle_three_returns (g : GurdyState) (h0 : g.mel_mode = 0)
    (h1 : g.mystring.mute_on = false) (h2 : g.mylowstring.mute_on = false) :
    MelCycleConcl g := by
  have a1 := cycle_mel_mute_modes g
  simp only [h0, if_pos, Prod.mk.injEq] at a1
  obtain ⟨b1, b2, b3⟩ := a1
  have a2 := cycle_mel_mute_modes (cycle_mel_mute g).1
  simp [b1, Prod.mk.injEq] at a2
  obtain ⟨c1, c2, c3⟩ := a2
  have a3 := cycle_mel_mute_modes (cycle_mel_mute (cycle_mel_mute g).1).1
  simp [c1, Prod.mk.injEq] at a3
  obtain ⟨d1, d2, d3⟩ := a3
  exact ⟨⟨b1, b2, b3⟩, ⟨c1, c2, c3⟩,
    by rw [d1, h0], by rw [d2, h1], by rw [d3, h2]⟩

/-- A concrete global state with both melody voices unmuted and sounding,
drone/trompette/buzz muted: modes (0, 1, 1). -/
def sampleState : GurdyState :=
  { mystring := ((GurdyString.mkString 1 69 "Hi Melody" 56).soundOn 3 16).1
    mylowstring := ((GurdyString.mkString 2 57 "Low Melody" 56).soundOn 3 0).1
    mydrone := (GurdyString.mkString 3 50 "Drone" 56).setMute true
    mytromp := (GurdyString.mkString 4 62 "Trompette" 56).setMute true
    mybuzz := (GurdyString.mkString 5 62 "Buzz" 56).setMute true
    mel_mode := 0
    drone_mode := 1
    t_mode := 1 }

/-- Witness for C4 at `sampleState`. -/
theorem mel_mute_cycle_three_returns_witness :
    sampleState.mel_mode = 0 ∧ sampleState.mystring.mute_on = false ∧
    sampleState.mylowstring.mute_on = false ∧ MelCycleConcl sampleState :=
  ⟨rfl, rfl, rfl,
   mel_mute_cycle_three_returns sampleState rfl rfl rfl⟩

/-- The configurations visited in C5: from BOTH_OFF (mode 1, all three of
drone/trompette/buzz muted), successive `cycle_drone_tromp_mute` calls reach
DRONE_ONLY (mode 2), TROMP_ONLY (mode 3), BOTH_ON (mode 0), and the fourth
restores the mode and the three mute flags to their starting values. -/
def DroneTrompCycleConcl (g : GurdyState) : Prop :=
  (((cycle_drone_tromp_mute g).1.drone_mode,
    (cycle_drone_tromp_mute g).1.mydrone.mute_on,
    (cycle_drone_tromp_mute g).1.mytromp.mute_on,
    (cycle_drone_tromp_mute g).1.mybuzz.mute_on) =
      (2, false, true, true)) ∧
  (((cycle_drone_tromp_mute (cycle_drone_tromp_mute g).1).1.drone_mode,
    (cycle_drone_tromp_mute (cycle_drone_tromp_mute g).1).1.mydrone.mute_on,
    (cycle_drone_tromp_mute (cycle_drone_tromp_mute g).1).1.mytromp.mute_on,
    (cycle_drone_tromp_mute (cycle_drone_tromp_mute g).1).1.mybuzz.mute_on) =
      (3, true, false, false)) ∧
  (((cycle_drone_tromp_mute (cycle_drone_tromp_mute
      (cycle_drone_tromp_mute g).1).1).1.drone_mode,
    (cycle_drone_tromp_mute (cycle_drone_tromp_mute
      (cycle_drone_tromp_mute g).1).1).1.mydrone.mute_on,
    (cycle_drone_tromp_mute (cycle_drone_tromp_mute
      (cycle_drone_tromp_mute g).1).1).1.mytromp.mute_on,
    (cycle_drone_tromp_mute (cycle_drone_tromp_mute
      (cycle_drone_tromp_mute g).1).1).1.mybuzz.mute_on) =
      (0, false, false, false)) ∧
  (((cycle_drone_tromp_mute (cycle_drone_tromp_mute (cycle_drone_tromp_mute
      (cycle_drone_tromp_mute g).1).1).1).1.drone_mode,
    (cycle_drone_tromp_mute (cycle_drone_tromp_mute (cycle_drone_tromp_mute
      (cycle_drone_tromp_mute g).1).1).1).1.mydrone.mute_on,
    (cycle_drone_tromp_mute (cycle_drone_tromp_mute (cycle_drone_tromp_mute
      (cycle_drone_tromp_mute g).1).1).1).1.mytromp.mute_on,
    (cycle_drone_tromp_mute (cycle_drone_tromp_mute (cycle_drone_tromp_mute
      (cycle_drone_tromp_mute g).1).1).1).1.mybuzz.mute_on) =
      (g.drone_mode, g.mydrone.mute_on, g.mytromp.mute_on,
       g.mybuzz.mute_on))

/-- C5: from BOTH_OFF, four `cycle_drone_tromp_mute` calls visit DRONE_ONLY,
TROMP_ONLY, BOTH_ON and return to BOTH_OFF, restoring the mode and the mute
flags of the drone, trompette and buzz voices. -/
theorem drone_tromp_cycle_four_returns (g : GurdyState)
    (h0 : g.drone_mode = 1) (h1 : g.mydrone.mute_on = true)
    (h2 : g.mytromp.mute_on = true) (h3 : g.mybuzz.mute_on = true) :
    DroneTrompCycleConcl g := by
  have a1 := cycle_dt_modes g
  simp only [h0, Prod.mk.injEq] at a1
  norm_num at a1
  obtain ⟨b1, b2, b3, b4⟩ := a1
  have a2 := cycle_dt_modes (cycle_drone_tromp_mute g).1
  simp [b1, Prod.mk.injEq] at a2
  obtain ⟨c1, c2, c3, c4⟩ := a2
  have a3 := cycle_dt_modes (cycle_drone_tromp_mute
    (cycle_drone_tromp_mute g).1).1
  simp [c1, Prod.mk.injEq] at a3
  obtain ⟨d1, d2, d3, d4⟩ := a3
  have a4 := cycle_dt_modes (cycle_drone_tromp_mute (cycle_drone_tromp_mute
    (cycle_drone_tromp_mute g).1).1).1
  simp [d1, Prod.mk.injEq] at a4
  obtain ⟨e1, e2, e3, e4⟩ := a4
  refine ⟨?_, ?_, ?_, ?_⟩ <;> simp [Prod.mk.injEq, *]

/-- Witness for C5 at `sampleState` (drone_mode 1, all three muted). -/
theorem drone_tromp_cycle_four_returns_witness :
    sampleState.drone_mode = 1 ∧ sampleState.mydrone.mute_on = true ∧
    sampleState.mytromp.mute_on = true ∧ sampleState.mybuzz.mute_on = true ∧
    DroneTrompCycleConcl sampleState :=
  ⟨rfl, rfl, rfl, rfl,
   drone_tromp_cycle_four_returns sampleState rfl rfl rfl rfl⟩

/-- C6: if the buzz voice's mute flag equals the trompette's before any of
the four mute operations, it still equals it afterwards. -/
theorem buzz_mirrors_tromp (op : MuteOp) (g : GurdyState)
    (h : g.mybuzz.mute_on = g.mytromp.mute_on) :
    (applyMuteOp op g).1.mybuzz.mute_on =
      (applyMuteOp op g).1.mytromp.mute_on := by
  cases op with
  | mel =>
    have a := cycle_mel_mute_others g
    simp only [applyMuteOp]
    rw [a.2.2.1, a.2.1]
    exact h
  | droneTromp =>
    have a := cycle_dt_modes g
    simp only [applyMuteOp]
    split_ifs at a <;>
      (simp only [Prod.mk.injEq] at a; rw [a.2.2.2, a.2.2.1];
        try exact h)
  | drone =>
    have a := cycle_drone_others g
    simp only [applyMuteOp]
    rw [a.2.2.2.1, a.2.2.1]
    exact h
  | tromp =>
    have a := cycle_tromp_modes g
    simp only [applyMuteOp]
    split_ifs at a <;>
      (simp only [Prod.mk.injEq] at a; rw [a.2.2, a.2.1];
        try exact h)

/-- Witness for C6 at `sampleState` with the drone/trompette cycler. -/
theorem buzz_mirrors_tromp_witness :
    sampleState.mybuzz.mute_on = sampleState.mytromp.mute_on ∧
    (applyMuteOp MuteOp.droneTromp sampleState).1.mybuzz.mute_on =
      (applyMuteOp MuteOp.droneTromp sampleState).1.mytromp.mute_on :=
  ⟨rfl, buzz_mirrors_tromp MuteOp.droneTromp sampleState rfl⟩

lemma melodyConsistent_step (op : MuteOp) (g : GurdyState)
    (h : melodyConsistent g) : melodyConsistent (applyMuteOp op g).1 := by
  cases op with
  | mel =>
    have a := cycle_mel_mute_modes g
    unfold melodyConsistent at h ⊢
    simp only [applyMuteOp]
    rcases h with ⟨h0, hh, hl⟩ | ⟨h0, hh, hl⟩ | ⟨h0, hh, hl⟩ <;>
      simp only [h0, Prod.mk.injEq] at a <;> norm_num at a <;>
      simp [a.1, a.2.1, a.2.2]
  | droneTromp =>
    have a := cycle_dt_others g
    unfold melodyConsistent at h ⊢
    simp only [applyMuteOp]
    rw [a.1, a.2.1, a.2.2.1]
    exact h
  | drone =>
    have a := cycle_drone_others g
    unfold melodyConsistent at h ⊢
    simp only [applyMuteOp]
    rw [a.1, a.2.1, a.2.2.2.2.1]
    exact h
  | tromp =>
    have a := cycle_tromp_others g
    unfold melodyConsistent at h ⊢
    simp only [applyMuteOp]
    rw [a.1, a.2.1, a.2.2.2.1]
    exact h

/-- C7: from any state whose melody mute flags are consistent with a melody
mode in {0,1,2}, no sequence of the four mute operations ever leaves both
melody voices muted. -/
theorem never_both_melody_muted (ops : List MuteOp) (g : GurdyState)
    (h : melodyConsistent g) :
    ¬((applyMuteOps ops g).mystring.mute_on = true ∧
      (applyMuteOps ops g).mylowstring.mute_on = true) := by
  have key : melodyConsistent (applyMuteOps ops g) := by
    induction ops generalizing g with
    | nil => exact h
    | cons op rest ih => exact ih (applyMuteOp op g).1 (melodyConsistent_step op g h)
  intro hc
  unfold melodyConsistent at key
  rcases key with ⟨_, hh, _⟩ | ⟨_, hh, _⟩ | ⟨_, _, hl⟩ <;> simp_all

/-- Witness for C7 at `sampleState` over a concrete operation sequence that
exercises all four operations. -/
theorem never_both_melody_muted_witness :
    melodyConsistent sampleState ∧
    ¬((applyMuteOps
        [MuteOp.mel, MuteOp.droneTromp, MuteOp.mel, MuteOp.drone,
         MuteOp.tromp, MuteOp.mel, MuteOp.mel] sampleState).mystring.mute_on =
          true ∧
      (applyMuteOps
        [MuteOp.mel, MuteOp.droneTromp, MuteOp.mel, MuteOp.drone,
         MuteOp.tromp, MuteOp.mel, MuteOp.mel]
          sampleState).mylowstring.mute_on = true) :=
  ⟨by unfold melodyConsistent; decide,
   never_both_melody_muted
     [MuteOp.mel, MuteOp.droneTromp, MuteOp.mel, MuteOp.drone, MuteOp.tromp,
      MuteOp.mel, MuteOp.mel] sampleState
     (by unfold melodyConsistent; decide)⟩

/-- The statement of C8 at a given state: the drone toggle mutes the drone
exactly when the previous mode was BOTH_ON (0) or DRONE_ONLY (2), flips only
the drone's mute flag, moves the mode consistently, and leaves the
trompette/buzz mute flags and every voice's open note, volume and playing
flag unchanged. -/
def DroneToggleConcl (g : GurdyState) : Prop :=
  ((cycle_drone_mute g).1.mydrone.mute_on = true ↔
     (g.drone_mode = 0 ∨ g.drone_mode = 2)) ∧
  (cycle_drone_mute g).1.mydrone.mute_on = !g.mydrone.mute_on ∧
  (cycle_drone_mute g).1.drone_mode =
    (if g.drone_mode = 0 then 3 else if g.drone_mode = 2 then 1
     else if g.drone_mode = 1 then 2 else 0) ∧
  droneTrompConsistent (cycle_drone_mute g).1 ∧
  (cycle_drone_mute g).1.mytromp.mute_on = g.mytromp.mute_on ∧
  (cycle_drone_mute g).1.mybuzz.mute_on = g.mybuzz.mute_on ∧
  (cycle_drone_mute g).1.mystring = g.mystring ∧
  (cycle_drone_mute g).1.mylowstring = g.mylowstring ∧
  (cycle_drone_mute g).1.mytromp = g.mytromp ∧
  (cycle_drone_mute g).1.mybuzz = g.mybuzz ∧
  voiceCoreEq (cycle_drone_mute g).1.mydrone g.mydrone ∧
  (cycle_drone_mute g).1.mel_mode = g.mel_mode ∧
  (cycle_drone_mute g).1.t_mode = g.t_mode

/-- C8: on any state whose drone/trompette flags agree with `drone_mode`,
`cycle_drone_mute` flips only the drone's mute flag and updates the mode
consistently, leaving everything else unchanged. -/
theorem drone_toggle_flips_only_drone (g : GurdyState)
    (h : droneTrompConsistent g) : DroneToggleConcl g := by
  have a := cycle_drone_modes g
  have b := cycle_drone_others g
  have c := (cycle_drone_core g).1
  unfold DroneToggleConcl
  unfold droneTrompConsistent at h ⊢
  rcases h with ⟨h0, hd, ht⟩ | ⟨h0, hd, ht⟩ | ⟨h0, hd, ht⟩ | ⟨h0, hd, ht⟩ <;>
    simp [h0, Prod.mk.injEq] at a <;>
    simp [a.1, a.2, b.1, b.2.1, b.2.2.1, b.2.2.2.1, b.2.2.2.2.1,
      b.2.2.2.2.2, hd, ht, h0, c]

/-- Witness for C8 at `sampleState` (mode 1, BOTH_OFF). -/
theorem drone_toggle_flips_only_drone_witness :
    droneTrompConsistent sampleState ∧ DroneToggleConcl sampleState :=
  ⟨by unfold droneTrompConsistent; decide,
   drone_toggle_flips_only_drone sampleState
     (by unfold droneTrompConsistent; decide)⟩

/-- What "`soundOff` immediately followed by `soundOn` at the unchanged
note" must emit for a voice `v` whose mute flag at the `soundOn` is `muted`:
the note-off for the tracked note, then — unless muted — the note-on at the
very same note (the bare `soundOn()` carries no modulation, so no CC1). -/
def retrigBurst (v : GurdyString) (muted : Bool) : List MidiMsg :=
  MidiMsg.noteOff v.note_being_played v.midi_volume v.midi_channel ::
    (if muted then []
     else [MidiMsg.noteOn v.note_being_played v.midi_volume v.midi_channel])

/-- The voices each operation re-triggers when its representative voice is
playing, in source order, each paired with the mute flag it carries at its
`soundOn()` (the flag the operation has just set): read off the branches of
`src/exfunctions.cpp`. -/
def retrigList : MuteOp → GurdyState → List (GurdyString × Bool)
  | MuteOp.mel, g =>
      if g.mel_mode = 0 then [(g.mylowstring, true)]
      else if g.mel_mode = 1 then
        [(g.mystring, true), (g.mylowstring, false)]
      else [(g.mystring, false)]
  | MuteOp.droneTromp, g =>
      if g.drone_mode = 0 then [(g.mydrone, true), (g.mytromp, true)]
      else if g.drone_mode = 1 then [(g.mydrone, false)]
      else if g.drone_mode = 2 then
        [(g.mydrone, true), (g.mytromp, false)]
      else [(g.mydrone, false)]
  | MuteOp.drone, g =>
      if g.drone_mode = 0 ∨ g.drone_mode = 2 then [(g.mydrone, true)]
      else [(g.mydrone, false)]
  | MuteOp.tromp, g =>
      if g.t_mode = 0 then [(g.mytromp, true)] else [(g.mytromp, false)]

/-- The expected full transport trace of a re-triggering operation: the
re-trigger bursts of the affected voices, concatenated in source order. -/
def retrigTrace (op : MuteOp) (g : GurdyState) : List MidiMsg :=
  ((retrigList op g).map (fun vb => retrigBurst vb.1 vb.2)).flatten

/-- The `soundOn` half of the re-trigger took effect on the state: every
voice the operation re-triggered is playing afterwards. -/
def retrigRestored (op : MuteOp) (g : GurdyState) : Prop :=
  match op with
  | MuteOp.mel =>
      if g.mel_mode = 0 then
        (applyMuteOp MuteOp.mel g).1.mylowstring.is_playing = true
      else if g.mel_mode = 1 then
        (applyMuteOp MuteOp.mel g).1.mystring.is_playing = true ∧
        (applyMuteOp MuteOp.mel g).1.mylowstring.is_playing = true
      else (applyMuteOp MuteOp.mel g).1.mystring.is_playing = true
  | MuteOp.droneTromp =>
      if g.drone_mode = 0 ∨ g.drone_mode = 2 then
        (applyMuteOp MuteOp.droneTromp g).1.mydrone.is_playing = true ∧
        (applyMuteOp MuteOp.droneTromp g).1.mytromp.is_playing = true
      else (applyMuteOp MuteOp.droneTromp g).1.mydrone.is_playing = true
  | MuteOp.drone => (applyMuteOp MuteOp.drone g).1.mydrone.is_playing = true
  | MuteOp.tromp => (applyMuteOp MuteOp.tromp g).1.mytromp.is_playing = true

lemma mel_retrigger (g : GurdyState)
    (hm : g.mel_mode = 0 ∨ g.mel_mode = 1 ∨ g.mel_mode = 2) :
    ((cycle_mel_mute g).2 ≠ [] ↔ (repVoice MuteOp.mel g).is_playing = true) ∧
    ((repVoice MuteOp.mel g).is_playing = true →
      (cycle_mel_mute g).2 = retrigTrace MuteOp.mel g ∧
      (cycle_mel_mute g).2.head? =
        some (MidiMsg.noteOff (repVoice MuteOp.mel g).note_being_played
          (repVoice MuteOp.mel g).midi_volume
          (repVoice MuteOp.mel g).midi_channel) ∧
      retrigRestored MuteOp.mel g) ∧
    ((repVoice MuteOp.mel g).is_playing = false →
      (cycle_mel_mute g).2 = [] ∧ frameMuteOnly g (cycle_mel_mute g).1) := by
  rcases hm with h0 | h0 | h0 <;>
    simp only [repVoice, retrigRestored, retrigTrace, retrigList, retrigBurst,
      applyMuteOp, cycle_mel_mute, h0, GurdyString.setMute] <;>
    norm_num <;>
    [cases hp : g.mylowstring.is_playing;
     cases hp : g.mystring.is_playing;
     cases hp : g.mystring.is_playing] <;>
    simp [hp, retrig_snd, retrig_playing, GurdyString.setMute, frameMuteOnly,
      voiceFrameEq]

lemma dt_retrigger (g : GurdyState)
    (hd : g.drone_mode = 0 ∨ g.drone_mode = 1 ∨ g.drone_mode = 2 ∨
      g.drone_mode = 3) :
    ((cycle_drone_tromp_mute g).2 ≠ [] ↔
      (repVoice MuteOp.droneTromp g).is_playing = true) ∧
    ((repVoice MuteOp.droneTromp g).is_playing = true →
      (cycle_drone_tromp_mute g).2 = retrigTrace MuteOp.droneTromp g ∧
      (cycle_drone_tromp_mute g).2.head? =
        some (MidiMsg.noteOff
          (repVoice MuteOp.droneTromp g).note_being_played
          (repVoice MuteOp.droneTromp g).midi_volume
          (repVoice MuteOp.droneTromp g).midi_channel) ∧
      retrigRestored MuteOp.droneTromp g) ∧
    ((repVoice MuteOp.droneTromp g).is_playing = false →
      (cycle_drone_tromp_mute g).2 = [] ∧
      frameMuteOnly g (cycle_drone_tromp_mute g).1) := by
  rcases hd with h0 | h0 | h0 | h0 <;>
    simp only [repVoice, retrigRestored, retrigTrace, retrigList, retrigBurst,
      applyMuteOp, cycle_drone_tromp_mute, h0, GurdyString.setMute] <;>
    norm_num <;>
    cases hp : g.mydrone.is_playing <;>
    simp [hp, retrig_snd, retrig_playing, GurdyString.setMute, frameMuteOnly,
      voiceFrameEq]

lemma drone_retrigger (g : GurdyState)
    (hd : g.drone_mode = 0 ∨ g.drone_mode = 1 ∨ g.drone_mode = 2 ∨
      g.drone_mode = 3) :
    ((cycle_drone_mute g).2 ≠ [] ↔
      (repVoice MuteOp.drone g).is_playing = true) ∧
    ((repVoice MuteOp.drone g).is_playing = true →
      (cycle_drone_mute g).2 = retrigTrace MuteOp.drone g ∧
      (cycle_drone_mute g).2.head? =
        some (MidiMsg.noteOff (repVoice MuteOp.drone g).note_being_played
          (repVoice MuteOp.drone g).midi_volume
          (repVoice MuteOp.drone g).midi_channel) ∧
      retrigRestored MuteOp.drone g) ∧
    ((repVoice MuteOp.drone g).is_playing = false →
      (cycle_drone_mute g).2 = [] ∧
      frameMuteOnly g (cycle_drone_mute g).1) := by
  rcases hd with h0 | h0 | h0 | h0 <;>
    simp only [repVoice, retrigRestored, retrigTrace, retrigList, retrigBurst,
      applyMuteOp, cycle_drone_mute, h0, GurdyString.setMute] <;>
    norm_num <;>
    cases hp : g.mydrone.is_playing <;>
    simp [hp, retrig_snd, retrig_playing, GurdyString.setMute, frameMuteOnly,
      voiceFrameEq]

lemma tromp_retrigger (g : GurdyState)
    (ht : g.t_mode = 0 ∨ g.t_mode = 1) :
    ((cycle_tromp_mute g).2 ≠ [] ↔
      (repVoice MuteOp.tromp g).is_playing = true) ∧
    ((repVoice MuteOp.tromp g).is_playing = true →
      (cycle_tromp_mute g).2 = retrigTrace MuteOp.tromp g ∧
      (cycle_tromp_mute g).2.head? =
        some (MidiMsg.noteOff (repVoice MuteOp.tromp g).note_being_played
          (repVoice MuteOp.tromp g).midi_volume
          (repVoice MuteOp.tromp g).midi_channel) ∧
      retrigRestored MuteOp.tromp g) ∧
    ((repVoice MuteOp.tromp g).is_playing = false →
      (cycle_tromp_mute g).2 = [] ∧
      frameMuteOnly g (cycle_tromp_mute g).1) := by
  rcases ht with h0 | h0 <;>
    simp only [repVoice, retrigRestored, retrigTrace, retrigList, retrigBurst,
      applyMuteOp, cycle_tromp_mute, h0, GurdyString.setMute] <;>
    norm_num <;>
    cases hp : g.mytromp.is_playing <;>
    simp [hp, retrig_snd, retrig_playing, GurdyString.setMute, frameMuteOnly,
      voiceFrameEq]

/-- The statement of C3 at a given operation and state: the operation emits
messages iff the representative voice it checks is playing.  When playing,
the emitted trace is exactly the `soundOff`-then-`soundOn` bursts of the
re-triggered voices at their unchanged notes (`retrigTrace`: for each such
voice a note-off, then a note-on at the very same note unless it is muted),
starting with the representative voice's note-off; every voice still tracks
the same note afterwards and every re-triggered voice ends playing
(`retrigRestored`).  When not playing, nothing is emitted and only mute
flags and mode variables change (the display refresh is external). -/
def RetriggerConcl (op : MuteOp) (g : GurdyState) : Prop :=
  ((applyMuteOp op g).2 ≠ [] ↔ (repVoice op g).is_playing = true) ∧
  ((repVoice op g).is_playing = true →
    (applyMuteOp op g).2 = retrigTrace op g ∧
    (applyMuteOp op g).2.head? =
      some (MidiMsg.noteOff (repVoice op g).note_being_played
        (repVoice op g).midi_volume (repVoice op g).midi_channel) ∧
    notesUnchanged g (applyMuteOp op g).1 ∧
    retrigRestored op g) ∧
  ((repVoice op g).is_playing = false →
    (applyMuteOp op g).2 = [] ∧ frameMuteOnly g (applyMuteOp op g).1)

/-- C3: every mute cycle/toggle operation re-triggers sound — `soundOff`
immediately followed by `soundOn` at the unchanged note, i.e. a note-off for
each re-triggered voice's tracked note immediately followed by a note-on at
the very same note when unmuted, leaving the re-triggered voices playing —
iff the representative voice it checks is currently playing; otherwise only
mute flags, the mode variable and the display change. -/
theorem mute_op_retriggers_iff_playing (op : MuteOp) (g : GurdyState)
    (h : validModes g) : RetriggerConcl op g := by
  obtain ⟨hm, hd, ht⟩ := h
  cases op with
  | mel =>
    have a := mel_retrigger g hm
    exact ⟨a.1, fun hp => ⟨(a.2.1 hp).1, (a.2.1 hp).2.1,
      cycle_mel_mute_notes g, (a.2.1 hp).2.2⟩, a.2.2⟩
  | droneTromp =>
    have a := dt_retrigger g hd
    exact ⟨a.1, fun hp => ⟨(a.2.1 hp).1, (a.2.1 hp).2.1,
      cycle_dt_notes g, (a.2.1 hp).2.2⟩, a.2.2⟩
  | drone =>
    have a := drone_retrigger g hd
    exact ⟨a.1, fun hp => ⟨(a.2.1 hp).1, (a.2.1 hp).2.1,
      cycle_drone_notes g, (a.2.1 hp).2.2⟩, a.2.2⟩
  | tromp =>
    have a := tromp_retrigger g ht
    exact ⟨a.1, fun hp => ⟨(a.2.1 hp).1, (a.2.1 hp).2.1,
      cycle_tromp_notes g, (a.2.1 hp).2.2⟩, a.2.2⟩

/-- Witness for C3 at `sampleState` with the melody cycler (both melody
voices playing, so the re-trigger path is exercised). -/
theorem mute_op_retriggers_iff_playing_witness :
    validModes sampleState ∧ RetriggerConcl MuteOp.mel sampleState :=
  ⟨by unfold validModes; decide,
   mute_op_retriggers_iff_playing MuteOp.mel sampleState
     (by unfold validModes; decide)⟩
